import Mathlib

/-!
Verification of the onx_public_comment_map pipeline.

Shallow embedding of:
- `scripts/usfs_sopa_scrape.py` (`extract_date_range`),
- `scripts/blm_scrape.py` (`parse_dates_from_text`),
- `scripts/standardize.py` (`looks_like_3857`, `merc3857_to_wgs84`, `to_iso`,
  `first_nonempty`, `clean_text`, `detect_source`, `map_rows_to_final`, `to_geojson`),
- `scripts/enrich_with_district_geoms.py` (`ALIASES`, `normalize_unit_text`,
  `compute_centroids_csv`),
- the status computation of the canonical stage (spec section 4.5), whose
  implementation is referenced only by `tests/test_standardize.py`.

External collaborators (the `dateutil` parser, `pandas.to_datetime`, Python
`float()` string parsing, the `math` C library, `shapely` union/centroid) are
modelled as function parameters, as the spec treats them as black boxes.
Python calendar dates are modelled by the `Date` structure below; Python
compares `datetime.date` values chronologically, which for proleptic Gregorian
dates coincides with lexicographic order on (year, month, day).
-/

/-- A Python `datetime.date`-like value: year, month (1..12), day (1..31).
Values are created by the parsers below, which enforce calendar validity
exactly where the Python code does (`strptime` raises on invalid dates). -/
structure Date where
  year : Nat
  month : Nat
  day : Nat
  deriving DecidableEq, Repr

/-- The lexicographic key of a date; Python's `datetime.date` ordering is
chronological, i.e. lexicographic on (year, month, day). -/
def Date.lexKey (d : Date) : Nat ×ₗ (Nat ×ₗ Nat) :=
  toLex (d.year, toLex (d.month, d.day))

instance : LinearOrder Date :=
  LinearOrder.lift' Date.lexKey (by
    intro a b h
    cases a; cases b
    simp only [Date.lexKey, toLex] at h
    cases h
    rfl)

/-- Leap year rule of the proleptic Gregorian calendar (as in Python `datetime`). -/
def isLeapYear (y : Nat) : Bool :=
  y % 4 == 0 && (y % 100 != 0 || y % 400 == 0)

/-- Number of days in a month (Python `calendar`/`datetime` semantics). -/
def daysInMonth (y m : Nat) : Nat :=
  if m == 2 then (if isLeapYear y then 29 else 28)
  else if m == 4 || m == 6 || m == 9 || m == 11 then 30
  else 31

/-- The calendar successor of a date (one day later). -/
def nextDay (d : Date) : Date :=
  if d.day < daysInMonth d.year d.month then ⟨d.year, d.month, d.day + 1⟩
  else if d.month < 12 then ⟨d.year, d.month + 1, 1⟩
  else ⟨d.year + 1, 1, 1⟩

/-- The calendar predecessor of a date (one day earlier). -/
def prevDay (d : Date) : Date :=
  if 1 < d.day then ⟨d.year, d.month, d.day - 1⟩
  else if 1 < d.month then ⟨d.year, d.month - 1, daysInMonth d.year (d.month - 1)⟩
  else ⟨d.year - 1, 12, 31⟩

/-- `d + timedelta(days=n)` for a nonnegative `n`, ignoring Python's year-9999
ceiling (used by the spec-modelled status computation, where no bound applies). -/
def dateAddDays (d : Date) (n : Nat) : Date := nextDay^[n] d

/-- `d - timedelta(days=n)` for a nonnegative `n`. -/
def dateSubDays (d : Date) (n : Nat) : Date := prevDay^[n] d

/-- Python `date + timedelta(days=n)`: raises `OverflowError` (modelled as
`none`) when the result would pass `datetime.MAXYEAR = 9999`. -/
def pyAddDays (d : Date) (n : Nat) : Option Date :=
  let r := dateAddDays d n
  if r.year ≤ 9999 then some r else none

/-- Modelled from the spec: `compute_status(start, end, today)` (spec section 4.5)
is absent from `src/scripts/standardize.py`; only `src/tests/test_standardize.py`
references it.  Status derivation, given a reference `today` and optional
start/end bounds (`none` covers both an absent and an unparseable bound):
`active` iff both bounds present and start <= today <= end; else `upcoming` iff
start present, today < start, start <= today + 30 days; else `closed` iff end
present, end < today, end > today - 30 days; else `unknown`.  Active is checked
first. -/
def compute_status (start stop : Option Date) (today : Date) : String :=
  match start, stop with
  | some s, some e =>
      if s ≤ today ∧ today ≤ e then "active"
      else if today < s ∧ s ≤ dateAddDays today 30 then "upcoming"
      else if e < today ∧ dateSubDays today 30 < e then "closed"
      else "unknown"
  | some s, none =>
      if today < s ∧ s ≤ dateAddDays today 30 then "upcoming" else "unknown"
  | none, some e =>
      if e < today ∧ dateSubDays today 30 < e then "closed" else "unknown"
  | none, none => "unknown"

/-- The `active` window condition of spec section 4.5. -/
def activeCond (start stop : Option Date) (today : Date) : Prop :=
  ∃ s e, start = some s ∧ stop = some e ∧ s ≤ today ∧ today ≤ e

/-- The `upcoming` window condition of spec section 4.5. -/
def upcomingCond (start : Option Date) (today : Date) : Prop :=
  ∃ s, start = some s ∧ today < s ∧ s ≤ dateAddDays today 30

/-- The `closed` window condition of spec section 4.5. -/
def closedCond (stop : Option Date) (today : Date) : Prop :=
  ∃ e, stop = some e ∧ e < today ∧ dateSubDays today 30 < e

/-- Python word character for `\b` (ASCII range: letters, digits, underscore). -/
def isPyWordChar (c : Char) : Bool := c.isAlphanum || c == '_'

/-- Python `\s` / `str.strip()` whitespace (ASCII range). -/
def isPySpace (c : Char) : Bool :=
  c == ' ' || c == '\t' || c == '\n' || c == '\r' || c == '\x0b' || c == '\x0c'

/-- ASCII lower-casing, as `str.lower()` / `re.IGNORECASE` on ASCII input. -/
def lowerChar (c : Char) : Char :=
  if 'A' ≤ c && c ≤ 'Z' then Char.ofNat (c.toNat + 32) else c

/-- `str.lower()` on ASCII strings. -/
def lowerStr (s : String) : String := ⟨s.data.map lowerChar⟩

/-- Case-insensitive character comparison. -/
def charsEqCI (a b : Char) : Bool := lowerChar a == lowerChar b

/-- Case-insensitive list-prefix test (pattern, then text). -/
def isPrefixCI : List Char → List Char → Bool
  | [], _ => true
  | _ :: _, [] => false
  | p :: ps, t :: ts => charsEqCI p t && isPrefixCI ps ts

/-- Case-sensitive substring test, as Python `needle in hay`. -/
def containsSub (needle : List Char) : List Char → Bool
  | [] => needle.isEmpty
  | c :: t => needle.isPrefixOf (c :: t) || containsSub needle t

/-- Case-insensitive substring test. -/
def containsSubCI (needle hay : List Char) : Bool :=
  containsSub (needle.map lowerChar) (hay.map lowerChar)

/-- Case-insensitive suffix test. -/
def endsWithCI (suffix hay : List Char) : Bool :=
  (suffix.map lowerChar).isSuffixOf (hay.map lowerChar)

/-- Python `str.strip()` (leading and trailing whitespace removed). -/
def trimList (l : List Char) : List Char :=
  ((l.dropWhile isPySpace).reverse.dropWhile isPySpace).reverse

/-- Python `str.rstrip(chars)`. -/
def rstripSet (set : List Char) (l : List Char) : List Char :=
  (l.reverse.dropWhile (fun c => set.contains c)).reverse

/-- Python `str.split(sep)` for a one-character separator (keeps empty pieces). -/
def splitOnChar (sep : Char) : List Char → List (List Char)
  | [] => [[]]
  | c :: t =>
      let r := splitOnChar sep t
      if c == sep then [] :: r
      else
        match r with
        | [] => [[c]]
        | h :: t2 => (c :: h) :: t2

/-- `re.sub(r"\s+", " ", s)`: every whitespace run becomes one space. -/
def collapseWsAux (prevSpace : Bool) : List Char → List Char
  | [] => []
  | c :: t =>
      if isPySpace c then
        if prevSpace then collapseWsAux true t else ' ' :: collapseWsAux true t
      else c :: collapseWsAux false t

/-- `re.sub(r"\s+", " ", s)` over a whole list. -/
def collapseWs (l : List Char) : List Char := collapseWsAux false l

/-- Drop the last `n` characters. -/
def dropLastN (l : List Char) (n : Nat) : List Char := l.take (l.length - n)

/-- `\b` holds before the next character when the preceding text ends in a
non-word character (or is empty). -/
def boundaryAfterLast (pre : List Char) : Bool :=
  match pre.getLast? with
  | none => true
  | some c => !isPyWordChar c

/-- `\b` holds after a match when the following text starts with a non-word
character (or is empty). -/
def boundaryBeforeHead (rest : List Char) : Bool :=
  match rest.head? with
  | none => true
  | some c => !isPyWordChar c

/-- `ALIASES` of `enrich_with_district_geoms.py`: normalized-name overrides
for known mismatches between SOPA text and the EDW layer. -/
def ALIASES : List (String × String) :=
  [("bears ears ranger district", "hahns peak/bears ears ranger district")]

/-- `re.sub(r"\bRD\b\.?$", "Ranger District", seg, flags=re.IGNORECASE)`:
the whole-word suffix "RD" (optional trailing period) becomes "Ranger
District". -/
def subRdSuffix (l : List Char) : List Char :=
  if endsWithCI "rd.".data l && boundaryAfterLast (dropLastN l 3) then
    dropLastN l 3 ++ "Ranger District".data
  else if endsWithCI "rd".data l && boundaryAfterLast (dropLastN l 2) then
    dropLastN l 2 ++ "Ranger District".data
  else l

/-- One pass of `re.sub(r"\bRanger Districts\b", "Ranger District", seg,
flags=re.IGNORECASE)`: every whole-word occurrence is replaced, scanning left
to right over the original text. -/
def subRangerDistrictsGo (fuel : Nat) (prev : Option Char) (l : List Char) : List Char :=
  match fuel with
  | 0 => l
  | fuel + 1 =>
      match l with
      | [] => []
      | c :: t =>
          let boundary : Bool :=
            match prev with
            | none => true
            | some p => !isPyWordChar p
          if boundary && isPrefixCI "ranger districts".data (c :: t) &&
              boundaryBeforeHead ((c :: t).drop 16) then
            "Ranger District".data ++
              subRangerDistrictsGo fuel (((c :: t).take 16).getLast?) ((c :: t).drop 16)
          else c :: subRangerDistrictsGo fuel (some c) t

/-- `re.sub(r"\bRanger Districts\b", "Ranger District", seg, re.IGNORECASE)`. -/
def subRangerDistricts (l : List Char) : List Char :=
  subRangerDistrictsGo l.length none l

/-- `normalize_unit_text` of `enrich_with_district_geoms.py`: split the raw
unit text on commas, keep the portion after the last `/`, collapse whitespace,
strip trailing punctuation, coerce "RD" to "Ranger District", force a "Ranger
District" suffix, and apply the `ALIASES` table on the lowercased result. -/
def normalize_unit_text (unit : Option String) : List String :=
  match unit with
  | none => []
  | some u =>
      if u == "" then []
      else
        let parts := ((splitOnChar ',' u.data).map trimList).filter (fun p => !p.isEmpty)
        parts.map (fun p =>
          let seg := (splitOnChar '/' p).getLastD []
          let seg := trimList (collapseWs seg)
          let seg := rstripSet " .;:".data seg
          let seg := subRdSuffix seg
          let seg := subRangerDistricts seg
          let seg :=
            if endsWithCI "ranger district".data seg then seg
            else if endsWithCI "district".data seg && boundaryAfterLast (dropLastN seg 8) then
              dropLastN seg 8 ++ "Ranger District".data
            else seg ++ " Ranger District".data
          let segStr : String := ⟨seg⟩
          match ALIASES.lookup (lowerStr segStr) with
          | some target => target
          | none => segStr)

/-- One row of the USFS CSV read by `compute_centroids_csv`.  `unit` is the
raw unit text (`none` for a missing/NaN cell), `longitude`/`latitude` are the
possibly-present coordinates, and `rest` carries every other column of the
row, untouched by the enrichment. -/
structure EnrichRow (α : Type) where
  unit : Option String
  longitude : Option ℚ
  latitude : Option ℚ
  rest : α
  deriving Repr, DecidableEq

/-- An output row of `compute_centroids_csv`: the input row plus the
`matched_units` audit column. -/
structure EnrichOutRow (α : Type) where
  unit : Option String
  longitude : Option ℚ
  latitude : Option ℚ
  matched_units : Option String
  rest : α
  deriving Repr, DecidableEq

/-- One entry of the district lookup (`unit_lc`, `unit_name`, `geometry`);
the geometry type `G` is abstract (shapely is an external collaborator). -/
structure LutEntry (G : Type) where
  unit_lc : String
  unit_name : String
  geom : G
  deriving Repr

/-- `";".join(names)`. -/
def joinSemicolon (names : List String) : String :=
  String.intercalate ";" names

/-- The per-row body of the loop in `compute_centroids_csv`
(`enrich_with_district_geoms.py`): normalize the unit text, collect every
matching lookup entry across all candidates, union the matched geometries and
take the centroid; coordinates already present on the row are kept
(`Series.where(notna, centroids)`), and on zero matches the coordinates are
left as they were with `matched_units` set to `None`. -/
def enrich_row {α G : Type} (union : List G → G) (centroid : G → ℚ × ℚ)
    (lut : List (LutEntry G)) (r : EnrichRow α) : EnrichOutRow α :=
  let units := normalize_unit_text r.unit
  let found := units.flatMap (fun u =>
    lut.filter (fun en => en.unit_lc == lowerStr ⟨trimList u.data⟩))
  let unit_geoms := found.map (fun en => en.geom)
  let matched_list := found.map (fun en => en.unit_name)
  if unit_geoms.isEmpty then
    ⟨r.unit, r.longitude, r.latitude, none, r.rest⟩
  else
    let c := centroid (union unit_geoms)
    ⟨r.unit,
     (match r.longitude with | some v => some v | none => some c.1),
     (match r.latitude with | some v => some v | none => some c.2),
     (if matched_list.isEmpty then none else some (joinSemicolon matched_list)),
     r.rest⟩

/-- `compute_centroids_csv` of `enrich_with_district_geoms.py`, restricted to
its pure core: the three centroid columns are computed row by row and merged
back into a copy of the input table (pandas assembles them as parallel series
over the same RangeIndex, which is the same as a per-row map). -/
def compute_centroids_csv {α G : Type} (union : List G → G) (centroid : G → ℚ × ℚ)
    (lut : List (LutEntry G)) (rows : List (EnrichRow α)) : List (EnrichOutRow α) :=
  rows.map (enrich_row union centroid lut)

/-- Python `str.strip()` on a `String`. -/
def trimStr (s : String) : String := ⟨trimList s.data⟩

/-- `looks_like_3857` of `standardize.py`: both strings must parse as numbers
(`float()` is an external collaborator, passed as `fp`; `none` models a raised
`ValueError`), the pair must not look like degrees, and at least one magnitude
must exceed 1000. -/
def looks_like_3857 (fp : String → Option ℚ) (lon_str lat_str : String) : Bool :=
  match fp lon_str, fp lat_str with
  | some x, some y =>
      let degish := decide (-180 ≤ x) && decide (x ≤ 180) &&
        decide (-90 ≤ y) && decide (y ≤ 90)
      let mercish := decide (1000 < |x|) || decide (1000 < |y|)
      !degish && mercish
  | _, _ => false

/-- `merc3857_to_wgs84` of `standardize.py`.  The unclamped spherical inverse
`(x/R*(180/pi), (2*atan(exp(y/R)) - pi/2)*(180/pi))` with `R = 6378137.0` is
C-library float math, modelled by the collaborator `inv`; the function then
clamps latitude to [-90, 90] and longitude to [-180, 180], exactly as the
source does. -/
def merc3857_to_wgs84 (inv : ℚ → ℚ → ℚ × ℚ) (x y : ℚ) : ℚ × ℚ :=
  let p := inv x y
  let lat := max (min p.2 90) (-90)
  let lon := max (min p.1 180) (-180)
  (lon, lat)

/-- Zero-padded decimal rendering. -/
def padNat (n width : Nat) : String :=
  let s := toString n
  ⟨List.replicate (width - s.length) '0'⟩ ++ s

/-- ISO `YYYY-MM-DD` rendering of a date (`date.isoformat()`). -/
def isoDate (d : Date) : String :=
  padNat d.year 4 ++ "-" ++ padNat d.month 2 ++ "-" ++ padNat d.day 2

/-- `to_iso` of `standardize.py`: empty/NaN input gives "", otherwise the
external `pandas.to_datetime` collaborator `pdDate` parses the value (`none`
models a raised exception, yielding ""). -/
def to_iso (pdDate : String → Option Date) (d : String) : String :=
  if d == "" then ""
  else match pdDate d with
    | some dt => isoDate dt
    | none => ""

/-- One CSV row as read by `pd.read_csv(p, dtype=str).fillna("")`: an
association list from column name to string value. -/
abbrev SRow := List (String × String)

/-- A string-typed data frame: its column list and its rows. -/
structure DF where
  columns : List String
  rows : List SRow

/-- `first_nonempty` of `standardize.py`: the first candidate column that is
present on the row with a non-blank stripped value. -/
def first_nonempty (r : SRow) : List String → String
  | [] => ""
  | c :: rest =>
      match r.lookup c with
      | some v => if trimStr v == "" then first_nonempty r rest else trimStr v
      | none => first_nonempty r rest

/-- `clean_text` of `standardize.py`: strip, then drop trailing periods and
whitespace. -/
def clean_text (s : String) : String :=
  if s == "" then "" else ⟨rstripSet ". \t\r\n".data (trimList s.data)⟩

/-- Python `a or b` on strings (empty string is falsy). -/
def orStr (a b : String) : String := if a == "" then b else a

/-- `detect_source` of `standardize.py`: BLM when the BLM column set is
present and the first URLs point at blm.gov; else USFS when USFS-flavored
columns exist; else sniff the first row's url/source_url; defaults to USFS. -/
def detect_source (df : DF) : String :=
  let cols := df.columns.map lowerStr
  let blmCols := ["project_id", "state", "latitude", "longitude"].all
    (fun c => cols.contains c)
  let urlJoin :=
    if df.columns.contains "url" then
      String.join ((df.rows.take 5).map (fun r => (r.lookup "url").getD ""))
    else ""
  let u := lowerStr urlJoin
  if blmCols && (containsSub "eplanning.blm.gov".data u.data ||
      containsSub "blm.gov".data u.data) then "BLM"
  else if cols.contains "unit" || cols.contains "comment_start" ||
      cols.contains "comment_end" then "USFS"
  else
    match df.rows.head? with
    | some r =>
        let u2 := lowerStr (orStr ((r.lookup "url").getD "")
          ((r.lookup "source_url").getD ""))
        if containsSub "eplanning.blm.gov".data u2.data ||
            containsSub "blm.gov".data u2.data then "BLM"
        else "USFS"
    | none => "USFS"

/-- One row of the minimal map-ready schema produced by `map_rows_to_final`.
The source stores coordinates as Python floats, always present on an emitted
row; `Option` captures the general dict shape that `to_geojson` reads. -/
structure MinRow where
  project_name : String
  source : String
  start_date : String
  end_date : String
  notes : String
  longitude : Option ℚ
  latitude : Option ℚ
  deriving Repr, DecidableEq

/-- `map_rows_to_final` of `standardize.py`: convert an input table (BLM or
USFS flavored) to the minimal row schema.  `fp` is Python `float()`, `inv`
the unclamped Mercator inverse, `pdDate` the pandas date parser.  A row is
appended only when both coordinates resolved (`lon is not None and lat is not
None`); otherwise it is dropped. -/
def map_rows_to_final (fp : String → Option ℚ) (inv : ℚ → ℚ → ℚ × ℚ)
    (pdDate : String → Option Date) (df : DF) (source_hint : Option String) :
    List MinRow :=
  let source := match source_hint with | some s => s | none => detect_source df
  df.rows.flatMap (fun r =>
    if source == "BLM" then
      let pid := first_nonempty r ["project_id", "ProjectID", "ID"]
      let notes := first_nonempty r
        ["description", "Summary", "ProjectDescription", "ProjectSummary"]
      let cs := to_iso pdDate (first_nonempty r
        ["comment_start", "start_date", "PublicCommentStartDate"])
      let ce := to_iso pdDate (first_nonempty r
        ["comment_end", "PublicCommentEndDate"])
      let lon_raw := first_nonempty r ["longitude", "Longitude", "X"]
      let lat_raw := first_nonempty r ["latitude", "Latitude", "Y"]
      let coords : Option (ℚ × ℚ) :=
        if lon_raw != "" && lat_raw != "" then
          if looks_like_3857 fp lon_raw lat_raw then
            match fp lon_raw, fp lat_raw with
            | some x, some y => some (merc3857_to_wgs84 inv x y)
            | _, _ => none
          else
            match fp lon_raw, fp lat_raw with
            | some x, some y => some (x, y)
            | _, _ => none
        else none
      match coords with
      | some (lo, la) => [⟨pid, "BLM", cs, ce, trimStr notes, some lo, some la⟩]
      | none => []
    else
      let name := first_nonempty r ["name", "title"]
      let notes := first_nonempty r ["location_desc", "notes", "description"]
      let cs := to_iso pdDate (first_nonempty r
        ["comment_start", "start_date", "comment_start_date", "expected_comment_start"])
      let ce := to_iso pdDate (first_nonempty r
        ["comment_end", "comment_end_date", "expected_comment_end"])
      let lon_raw := first_nonempty r ["longitude"]
      let lat_raw := first_nonempty r ["latitude"]
      let coords : Option (ℚ × ℚ) :=
        if lon_raw != "" && lat_raw != "" then
          match fp lon_raw, fp lat_raw with
          | some x, some y => some (x, y)
          | _, _ => none
        else none
      match coords with
      | some (lo, la) =>
          [⟨orStr (clean_text name) "Unnamed project", "USFS", cs, ce,
            trimStr notes, some lo, some la⟩]
      | none => [])

/-- The row-merging loop of `main` in `standardize.py`: map every input table
to the minimal schema (source auto-detected) and concatenate in input order. -/
def merge_all_rows (fp : String → Option ℚ) (inv : ℚ → ℚ → ℚ × ℚ)
    (pdDate : String → Option Date) (dfs : List DF) : List MinRow :=
  (dfs.map (fun df => map_rows_to_final fp inv pdDate df none)).flatten

/-- The properties dict built for each feature by `to_geojson`. -/
def featureProps (r : MinRow) : List (String × String) :=
  [("project_name", r.project_name), ("source", r.source),
   ("start_date", r.start_date), ("end_date", r.end_date), ("notes", r.notes)]

/-- A GeoJSON Point feature of `to_geojson`. -/
structure Feature where
  lon : ℚ
  lat : ℚ
  properties : List (String × String)
  deriving Repr, DecidableEq

/-- `to_geojson` of `standardize.py`: one Point per row from
`float(r["longitude"]), float(r["latitude"])`; a row without coordinate
values raises (KeyError / float(None)), modelled as `none` for the whole
call, since the exception would propagate out of the loop. -/
def to_geojson (rows : List MinRow) : Option (List Feature) :=
  rows.mapM (fun r =>
    match r.longitude, r.latitude with
    | some lo, some la => some ⟨lo, la, featureProps r⟩
    | _, _ => none)

/-- The column list `save_to_csv` of `usfs_sopa_scrape.py` writes, i.e. the
schema of the USFS CSV that `standardize.py` consumes. -/
def usfsCols : List String :=
  ["project_id", "name", "state", "latitude", "longitude", "start_date",
   "comment_start", "comment_end", "expected_comment_start",
   "expected_comment_end", "confidence", "notes", "url"]

/-- A USFS record with no resolved geometry (empty latitude/longitude), as the
scraper emits for every HTML row (it sets both to `None`). -/
def usfsRowNoGeom : SRow :=
  [("project_id", "unknown"), ("name", "Trail Project"), ("state", "Colorado"),
   ("latitude", ""), ("longitude", ""), ("start_date", ""),
   ("comment_start", ""), ("comment_end", ""), ("expected_comment_start", ""),
   ("expected_comment_end", ""), ("confidence", "0.7"),
   ("notes", "Comment Period Public Notice"),
   ("url", "https://www.fs.usda.gov/sopa/components/reports/sopa-110202-2025-07.html")]

/-- A one-row USFS input table whose row has no coordinates. -/
def usfsTableNoGeom : DF := ⟨usfsCols, [usfsRowNoGeom]⟩

/-- Full month names with their numbers, as in `%B` and the SOPA date regex. -/
def monthFullNames : List (String × Nat) :=
  [("January", 1), ("February", 2), ("March", 3), ("April", 4), ("May", 5),
   ("June", 6), ("July", 7), ("August", 8), ("September", 9), ("October", 10),
   ("November", 11), ("December", 12)]

/-- Decimal value of a digit list. -/
def digitsVal (l : List Char) : Nat :=
  l.foldl (fun a c => a * 10 + (c.toNat - 48)) 0

/-- Try to match the SOPA long-date regex
`\b(?:January|...|December)\s+\d{1,2},\s+\d{4}` at the head of `l`, with
`prev` the character before it (for `\b`).  Returns the matched text and its
length. -/
def matchLongDateAt (prev : Option Char) (l : List Char) : Option (List Char × Nat) :=
  let boundary : Bool := match prev with | none => true | some p => !isPyWordChar p
  if !boundary then none
  else
    match monthFullNames.find? (fun nm => nm.1.data.isPrefixOf l) with
    | none => none
    | some nm =>
        let rest1 := l.drop nm.1.length
        let ws1 := rest1.takeWhile isPySpace
        if ws1.isEmpty then none
        else
          let rest2 := rest1.drop ws1.length
          let digits := rest2.takeWhile Char.isDigit
          if !(digits.length == 1 || digits.length == 2) then none
          else
            let rest3 := rest2.drop digits.length
            match rest3 with
            | ',' :: rest4 =>
                let ws2 := rest4.takeWhile isPySpace
                if ws2.isEmpty then none
                else
                  let rest5 := rest4.drop ws2.length
                  let yr := rest5.take 4
                  if yr.length == 4 && yr.all Char.isDigit then
                    let tok := nm.1.data ++ ws1 ++ digits ++ [','] ++ ws2 ++ yr
                    some (tok, tok.length)
                  else none
            | _ => none

/-- `re.findall` driver for the long-date regex: leftmost, non-overlapping
matches, scanning the text once. -/
def findLongTokensGo (fuel : Nat) (prev : Option Char) (l : List Char) : List String :=
  match fuel with
  | 0 => []
  | fuel + 1 =>
      match l with
      | [] => []
      | c :: t =>
          match matchLongDateAt prev (c :: t) with
          | some (tok, n) =>
              (⟨tok⟩ : String) :: findLongTokensGo fuel tok.getLast? ((c :: t).drop n)
          | none => findLongTokensGo fuel (some c) t

/-- `re.findall(date_regex, text)` of `usfs_sopa_scrape.py`. -/
def findLongTokens (s : String) : List String :=
  findLongTokensGo s.data.length none s.data

/-- Try to match the short regex `\b(?:0[1-9]|1[0-2])/\d{4}\b` at the head. -/
def matchShortDateAt (prev : Option Char) (l : List Char) : Option (List Char × Nat) :=
  let boundary : Bool := match prev with | none => true | some p => !isPyWordChar p
  if !boundary then none
  else
    match l with
    | c0 :: c1 :: '/' :: rest =>
        let monthOk : Bool :=
          (c0 == '0' && '1' ≤ c1 && c1 ≤ '9') || (c0 == '1' && '0' ≤ c1 && c1 ≤ '2')
        if !monthOk then none
        else
          let yr := rest.take 4
          if yr.length == 4 && yr.all Char.isDigit &&
              boundaryBeforeHead (rest.drop 4) then
            some (c0 :: c1 :: '/' :: yr, 7)
          else none
    | _ => none

/-- `re.findall` driver for the short month/year regex. -/
def findShortTokensGo (fuel : Nat) (prev : Option Char) (l : List Char) : List String :=
  match fuel with
  | 0 => []
  | fuel + 1 =>
      match l with
      | [] => []
      | c :: t =>
          match matchShortDateAt prev (c :: t) with
          | some (tok, n) =>
              (⟨tok⟩ : String) :: findShortTokensGo fuel tok.getLast? ((c :: t).drop n)
          | none => findShortTokensGo fuel (some c) t

/-- `re.findall(short_regex, text)` of `usfs_sopa_scrape.py`. -/
def findShortTokens (s : String) : List String :=
  findShortTokensGo s.data.length none s.data

/-- `datetime.strptime(tok, "%B %d, %Y").date()`: parse a long-form token;
`none` models the `ValueError` raised on a calendar-invalid day or year. -/
def parseLongToken (tok : String) : Option Date :=
  match monthFullNames.find? (fun nm => isPrefixCI nm.1.data tok.data) with
  | none => none
  | some nm =>
      let rest1 := (tok.data.drop nm.1.length).dropWhile isPySpace
      let digits := rest1.takeWhile Char.isDigit
      if digits.isEmpty || 2 < digits.length then none
      else
        match rest1.drop digits.length with
        | ',' :: rest2 =>
            let rest3 := rest2.dropWhile isPySpace
            let yr := rest3.takeWhile Char.isDigit
            if yr.length == 4 && (rest3.drop yr.length).isEmpty then
              let y := digitsVal yr
              let d := digitsVal digits
              if 1 ≤ y && 1 ≤ d && d ≤ daysInMonth y nm.2 then
                some ⟨y, nm.2, d⟩
              else none
            else none
        | _ => none

/-- `datetime.strptime(tok, "%m/%Y").date().replace(day=1)`: parse a
month/year token; the day is 1; year 0 raises (`none`). -/
def parseShortToken (tok : String) : Option Date :=
  match tok.data with
  | c0 :: c1 :: '/' :: yr =>
      if [c0, c1].all Char.isDigit && yr.length == 4 && yr.all Char.isDigit then
        let m := digitsVal [c0, c1]
        let y := digitsVal yr
        if 1 ≤ m && m ≤ 12 && 1 ≤ y then some ⟨y, m, 1⟩ else none
      else none
  | _ => none

/-- `"Comment Period Public Notice" in text`. -/
def hasNoticePhrase (text : String) : Bool :=
  containsSub "Comment Period Public Notice".data text.data

/-- All dates parsed from the text by `extract_date_range`: long-form dates
first, then month/year dates, skipping unparseable tokens. -/
def usfsRawDates (text : String) : List Date :=
  (findLongTokens text).filterMap parseLongToken ++
    (findShortTokens text).filterMap parseShortToken

/-- `sorted(set(parsed_dates))` of `extract_date_range`: the sorted
duplicate-free list of the parsed dates (sorting then removing duplicates,
which for a sorted list are adjacent, gives exactly that list). -/
def usfsSortedDates (text : String) : List Date :=
  (List.insertionSort (· ≤ ·) (usfsRawDates text)).dedup

/-- The five optional dates returned by `extract_date_range`
(start_date, comment_start, comment_end, expected_comment_start,
expected_comment_end). -/
structure UsfsResult where
  start_date : Option Date
  comment_start : Option Date
  comment_end : Option Date
  expected_start : Option Date
  expected_end : Option Date
  deriving Repr, DecidableEq

/-- `extract_date_range` of `usfs_sopa_scrape.py`: collect long and short
date tokens, deduplicate and sort; on a "Comment Period Public Notice" text
take the first long-form date as expected start with a 30-day expected window
(the `OverflowError` past year 9999 is swallowed, leaving the expected end
unset); one parsed date becomes end if past (vs `today`) else start; two or
more become (earliest, second-earliest); `start_date` is the first non-None
of comment_start, expected_start, comment_end, expected_end. -/
def extract_date_range (text : String) (today : Date) : UsfsResult :=
  let parsed_dates := usfsSortedDates text
  let expPair : Option Date × Option Date :=
    if hasNoticePhrase text then
      match (findLongTokens text).head? with
      | some tok =>
          match parseLongToken tok with
          | some d => (some d, pyAddDays d 30)
          | none => (none, none)
      | none => (none, none)
    else (none, none)
  let csce : Option Date × Option Date :=
    match parsed_dates with
    | [] => (none, none)
    | [d] => if d < today then (none, some d) else (some d, none)
    | d1 :: d2 :: _ => (some d1, some d2)
  let sd := (((csce.1).orElse (fun _ => expPair.1)).orElse
    (fun _ => csce.2)).orElse (fun _ => expPair.2)
  ⟨sd, csce.1, csce.2, expPair.1, expPair.2⟩

/-- The participation keywords of `KW` in `blm_scrape.py`
(`re.search` with `re.I`: case-insensitive substring). -/
def kwList : List String :=
  ["comment", "public", "scoping", "feedback", "submit", "due", "open",
   "close", "participation", "input"]

/-- `KW.search(c)`: does the clause contain a participation keyword? -/
def containsKW (c : String) : Bool :=
  kwList.any (fun kw => containsSubCI kw.data c.data)

/-- `re.search(r"(due|close|deadline|by)", c, re.I)`. -/
def closingKW (c : String) : Bool :=
  ["due", "close", "deadline", "by"].any (fun kw => containsSubCI kw.data c.data)

/-- `re.split(r"(?<=[\.\!\?])\s+|\n+", text)`: split after sentence-ending
punctuation followed by whitespace, or on newline runs; the first alternative
is preferred when both match at a position, and each delimiter run is
consumed greedily. -/
def splitClausesGo (fuel : Nat) (prev : Option Char) (cur : List Char)
    (l : List Char) : List (List Char) :=
  match fuel with
  | 0 => [cur.reverse]
  | fuel + 1 =>
      match l with
      | [] => [cur.reverse]
      | c :: t =>
          let sentEnd : Bool :=
            match prev with
            | some p => p == '.' || p == '!' || p == '?'
            | none => false
          if isPySpace c && sentEnd then
            let run := (c :: t).takeWhile isPySpace
            let rest := (c :: t).drop run.length
            cur.reverse :: splitClausesGo fuel run.getLast? [] rest
          else if c == '\n' then
            let run := (c :: t).takeWhile (fun x => x == '\n')
            let rest := (c :: t).drop run.length
            cur.reverse :: splitClausesGo fuel run.getLast? [] rest
          else splitClausesGo fuel (some c) (c :: cur) t

/-- `re.split(r"(?<=[\.\!\?])\s+|\n+", text)` over a whole string. -/
def splitClauses (s : String) : List String :=
  (splitClausesGo s.data.length none [] s.data).map (fun l => (⟨l⟩ : String))

/-- `[c.strip() for c in clauses if c.strip()]` of `parse_dates_from_text`. -/
def blmClauses (text : String) : List String :=
  ((splitClauses text).map trimStr).filter (fun c => !(c == ""))

/-- `year_ok` of `parse_dates_from_text`: year in [2000, current_year + 2]. -/
def year_ok (curYear : Nat) (d : Date) : Bool :=
  2000 ≤ d.year && d.year ≤ curYear + 2

/-- The three-letter month prefixes of `DATE_ANY_RE`, lowercased. -/
def month3 : List (List Char) :=
  ["jan", "feb", "mar", "apr", "may", "jun", "jul", "aug", "sep", "oct",
   "nov", "dec"].map String.data

/-- Try to match `DATE_ANY_RE` =
`(Jan|...|Dec)[a-z]*\s+\d{1,2},\s*\d{4}` (case-insensitive, no word
boundaries) at the head of `l`; returns the matched text and its length. -/
def matchAnyDateAt (l : List Char) : Option (List Char × Nat) :=
  let pre3 := (l.take 3).map lowerChar
  if !(month3.any (fun m => m == pre3)) then none
  else
    let letters := (l.drop 3).takeWhile Char.isAlpha
    let rest1 := l.drop (3 + letters.length)
    let ws1 := rest1.takeWhile isPySpace
    if ws1.isEmpty then none
    else
      let rest2 := rest1.drop ws1.length
      let digits := rest2.takeWhile Char.isDigit
      if !(digits.length == 1 || digits.length == 2) then none
      else
        match rest2.drop digits.length with
        | ',' :: rest3 =>
            let ws2 := rest3.takeWhile isPySpace
            let rest4 := rest3.drop ws2.length
            let yr := rest4.take 4
            if yr.length == 4 && yr.all Char.isDigit then
              let tok := l.take 3 ++ letters ++ ws1 ++ digits ++ [','] ++ ws2 ++ yr
              some (tok, tok.length)
            else none
        | _ => none

/-- `re.finditer(DATE_ANY_RE, s)` driver: leftmost, non-overlapping. -/
def findDateTokensGo (fuel : Nat) (l : List Char) : List String :=
  match fuel with
  | 0 => []
  | fuel + 1 =>
      match l with
      | [] => []
      | c :: t =>
          match matchAnyDateAt (c :: t) with
          | some (tok, n) => (⟨tok⟩ : String) :: findDateTokensGo fuel ((c :: t).drop n)
          | none => findDateTokensGo fuel t

/-- All `DATE_ANY_RE` matches of a clause, in order. -/
def findDateTokens (s : String) : List String :=
  findDateTokensGo s.data.length s.data

/-- `extract_dates` of `parse_dates_from_text`: parse every date-like token
with the `dateutil` collaborator `dparse` (`none` models a raised exception)
and keep those passing `year_ok`. -/
def extract_dates (dparse : String → Option Date) (curYear : Nat) (s : String) :
    List Date :=
  (findDateTokens s).filterMap (fun tok =>
    match dparse tok with
    | some d => if year_ok curYear d then some d else none
    | none => none)

/-- Try to match `COMMENT_DUE_RE` =
`(?:comments?\s+(?:are\s+due|due\s+by|must\s+be\s+postmarked\s+by)\s*)`
`([A-Za-z]{3,9}\s+\d{1,2},\s*\d{4})` (case-insensitive) at the head of `l`;
returns capture group 1 (the date-ish token). -/
def matchDueAt (l : List Char) : Option (List Char) :=
  if !isPrefixCI "comment".data l then none
  else
    let rest0 := l.drop 7
    let rest1 := match rest0 with
      | c :: t => if charsEqCI c 's' then t else rest0
      | [] => rest0
    let ws1 := rest1.takeWhile isPySpace
    if ws1.isEmpty then none
    else
      let rest2 := rest1.drop ws1.length
      let afterAlt : Option (List Char) :=
        if isPrefixCI "are".data rest2 then
          let r := rest2.drop 3
          let w := r.takeWhile isPySpace
          if w.isEmpty then none
          else if isPrefixCI "due".data (r.drop w.length) then
            some ((r.drop w.length).drop 3)
          else none
        else if isPrefixCI "due".data rest2 then
          let r := rest2.drop 3
          let w := r.takeWhile isPySpace
          if w.isEmpty then none
          else if isPrefixCI "by".data (r.drop w.length) then
            some ((r.drop w.length).drop 2)
          else none
        else if isPrefixCI "must".data rest2 then
          let r1 := rest2.drop 4
          let w1 := r1.takeWhile isPySpace
          if w1.isEmpty then none
          else if isPrefixCI "be".data (r1.drop w1.length) then
            let r2 := (r1.drop w1.length).drop 2
            let w2 := r2.takeWhile isPySpace
            if w2.isEmpty then none
            else if isPrefixCI "postmarked".data (r2.drop w2.length) then
              let r3 := (r2.drop w2.length).drop 10
              let w3 := r3.takeWhile isPySpace
              if w3.isEmpty then none
              else if isPrefixCI "by".data (r3.drop w3.length) then
                some ((r3.drop w3.length).drop 2)
              else none
            else none
          else none
        else none
      match afterAlt with
      | none => none
      | some rest3 =>
          let ws2 := rest3.takeWhile isPySpace
          let rest4 := rest3.drop ws2.length
          let letters := rest4.takeWhile Char.isAlpha
          if !(3 ≤ letters.length && letters.length ≤ 9) then none
          else
            let rest5 := rest4.drop letters.length
            let ws3 := rest5.takeWhile isPySpace
            if ws3.isEmpty then none
            else
              let rest6 := rest5.drop ws3.length
              let digits := rest6.takeWhile Char.isDigit
              if !(digits.length == 1 || digits.length == 2) then none
              else
                match rest6.drop digits.length with
                | ',' :: rest7 =>
                    let ws4 := rest7.takeWhile isPySpace
                    let rest8 := rest7.drop ws4.length
                    let yr := rest8.take 4
                    if yr.length == 4 && yr.all Char.isDigit then
                      some (letters ++ ws3 ++ digits ++ [','] ++ ws4 ++ yr)
                    else none
                | _ => none

/-- `COMMENT_DUE_RE.search(c)` driver: the leftmost match's group 1. -/
def searchCommentDueGo (fuel : Nat) (l : List Char) : Option String :=
  match fuel with
  | 0 => none
  | fuel + 1 =>
      match l with
      | [] => none
      | _ :: t =>
          match matchDueAt l with
          | some g => some (⟨g⟩ : String)
          | none => searchCommentDueGo fuel t

/-- `COMMENT_DUE_RE.search(c)` over a clause. -/
def searchCommentDue (c : String) : Option String :=
  searchCommentDueGo c.data.length c.data

/-- The body of the explicit "comments due by" loop of
`parse_dates_from_text`: parse the captured token, keep it when `year_ok`;
a parse failure or rejected year moves on to the next clause. -/
def dueSearchF (dparse : String → Option Date) (curYear : Nat) (c : String) :
    Option Date :=
  match searchCommentDue c with
  | some tok =>
      match dparse tok with
      | some d => if year_ok curYear d then some d else none
      | none => none
  | none => none

/-- One candidate window per relevant clause in `parse_dates_from_text`:
two or more dates give (earliest, latest, clause length) after sorting; a
single date in a clause with a closing-style keyword gives an end-only
candidate; anything else gives no candidate. -/
def clauseCandidate (dparse : String → Option Date) (curYear : Nat) (c : String) :
    Option (Option Date × Option Date × Nat) :=
  let ds := extract_dates dparse curYear c
  if 2 ≤ ds.length then
    let sorted := List.insertionSort (· ≤ ·) ds
    some (sorted.head?, sorted.getLast?, c.length)
  else if ds.length == 1 && closingKW c then some (none, ds.head?, c.length)
  else none

/-- `parse_dates_from_text` of `blm_scrape.py`: keyword-filter the clauses,
prefer an explicit "comments due by" date, otherwise collect per-clause
candidate windows and pick the one from the shortest clause.  `dparse` is
the `dateutil` collaborator, `curYear` is `datetime.now().year`. -/
def parse_dates_from_text (dparse : String → Option Date) (curYear : Nat)
    (text : String) : Option Date × Option Date :=
  if text == "" then (none, none)
  else
    let relevant := (blmClauses text).filter containsKW
    match relevant.findSome? (dueSearchF dparse curYear) with
    | some d => (none, some d)
    | none =>
        let candidates := relevant.filterMap (clauseCandidate dparse curYear)
        match (List.insertionSort
            (fun a b : Option Date × Option Date × Nat => a.2.2 ≤ b.2.2)
            candidates).head? with
        | some (s, e, _) => (s, e)
        | none => (none, none)

/-- C1: for every optional start date, optional end date and reference date
`today`, `compute_status` returns `"active"` iff both bounds are present and
start <= today <= end; otherwise `"upcoming"` iff start is present, today <
start and start <= today + 30 days; otherwise `"closed"` iff end is present,
end < today and end > today - 30 days; otherwise `"unknown"` (absent covers
unparseable dates); and a record satisfying the active window is never
classified `"closed"`. -/
theorem compute_status_cases (start stop : Option Date) (today : Date) :
    (compute_status start stop today = "active" ↔ activeCond start stop today) ∧
    (compute_status start stop today = "upcoming" ↔
      ¬ activeCond start stop today ∧ upcomingCond start today) ∧
    (compute_status start stop today = "closed" ↔
      ¬ activeCond start stop today ∧ ¬ upcomingCond start today ∧
        closedCond stop today) ∧
    (compute_status start stop today = "unknown" ↔
      ¬ activeCond start stop today ∧ ¬ upcomingCond start today ∧
        ¬ closedCond stop today) ∧
    (activeCond start stop today → compute_status start stop today ≠ "closed") := by
  have hau : "active" ≠ "upcoming" := by decide
  have hac : "active" ≠ "closed" := by decide
  have hak : "active" ≠ "unknown" := by decide
  have huc : "upcoming" ≠ "closed" := by decide
  have huk : "upcoming" ≠ "unknown" := by decide
  have hck : "closed" ≠ "unknown" := by decide
  cases start with
  | none =>
      cases stop with
      | none =>
          simp [compute_status, activeCond, upcomingCond, closedCond]
      | some e =>
          simp only [compute_status, activeCond, upcomingCond, closedCond]
          split_ifs with h1
          · simp_all
          · simp_all
  | some s =>
      cases stop with
      | none =>
          simp only [compute_status, activeCond, upcomingCond, closedCond]
          split_ifs with h1
          · simp_all
          · simp_all
      | some e =>
          simp only [compute_status, activeCond, upcomingCond, closedCond]
          split_ifs with h1 h2 h3
          · simp_all
          · simp_all
          · simp_all
          · simp_all

set_option maxRecDepth 4000 in
/-- Witness for C1 at the concrete inputs of `test_compute_status_rules`. -/
theorem compute_status_cases_witness :
    compute_status (some ⟨2025, 8, 1⟩) (some ⟨2025, 8, 31⟩) ⟨2025, 8, 21⟩ = "active" ∧
    compute_status (some ⟨2025, 9, 5⟩) none ⟨2025, 8, 21⟩ = "upcoming" ∧
    compute_status none (some ⟨2025, 8, 10⟩) ⟨2025, 8, 21⟩ = "closed" ∧
    compute_status none none ⟨2025, 8, 21⟩ = "unknown" := by
  refine ⟨(compute_status_cases _ _ _).1.mpr ⟨⟨2025, 8, 1⟩, ⟨2025, 8, 31⟩, rfl, rfl, by decide, by decide⟩,
    (compute_status_cases _ _ _).2.1.mpr ⟨by simp [activeCond], ⟨2025, 9, 5⟩, rfl, by decide, by decide⟩,
    (compute_status_cases _ _ _).2.2.1.mpr ⟨by simp [activeCond], by simp [upcomingCond], ⟨2025, 8, 10⟩, rfl, by decide, by decide⟩,
    (compute_status_cases _ _ _).2.2.2.1.mpr ⟨by simp [activeCond], by simp [upcomingCond], by simp [closedCond]⟩⟩

/-- C8: `normalize_unit_text` maps "Leadville RD" to a candidate ending in
"Ranger District", and maps "Bears Ears RD", through the `ALIASES` table, to
exactly the configured alias target "hahns peak/bears ears ranger district". -/
theorem normalize_unit_text_examples :
    normalize_unit_text (some "Leadville RD") = ["Leadville Ranger District"] ∧
    endsWithCI "Ranger District".data "Leadville Ranger District".data = true ∧
    "Ranger District".data.isSuffixOf "Leadville Ranger District".data = true ∧
    normalize_unit_text (some "Bears Ears RD") =
      ["hahns peak/bears ears ranger district"] ∧
    ALIASES.lookup "bears ears ranger district" =
      some "hahns peak/bears ears ranger district" := by
  refine ⟨by decide, by decide, by decide, by decide, by decide⟩

/-- C9: geometry enrichment never overwrites existing coordinates — for every
row that already has a longitude (resp. latitude) value the output keeps
exactly that value, whatever the lookup table contains (in particular on a
failed match) — and every column other than longitude, latitude and
`matched_units` (here: `unit` and the residual columns `rest`) is unchanged;
the table keeps its length. -/
theorem compute_centroids_csv_frame {α G : Type} (union : List G → G)
    (centroid : G → ℚ × ℚ) (lut : List (LutEntry G)) (rows : List (EnrichRow α))
    (i : Nat) (hi : i < rows.length) :
    (compute_centroids_csv union centroid lut rows).length = rows.length ∧
    ∀ r o, rows.get ⟨i, hi⟩ = r →
      (compute_centroids_csv union centroid lut rows).get
        ⟨i, by simpa [compute_centroids_csv] using hi⟩ = o →
      (r.longitude.isSome → o.longitude = r.longitude) ∧
      (r.latitude.isSome → o.latitude = r.latitude) ∧
      o.unit = r.unit ∧ o.rest = r.rest := by
  constructor
  · simp [compute_centroids_csv]
  · intro r o hr ho
    have hmap : (compute_centroids_csv union centroid lut rows).get
        ⟨i, by simpa [compute_centroids_csv] using hi⟩ =
        enrich_row union centroid lut (rows.get ⟨i, hi⟩) := by
      simp [compute_centroids_csv]
    rw [hr] at hmap
    rw [hmap] at ho
    subst ho
    cases hlon : r.longitude <;> cases hlat : r.latitude <;>
      simp only [enrich_row] <;> split <;> simp_all

/-- Witness for C9: a one-row table whose row already has coordinates, against
an empty lookup table (a failed match), keeps its coordinates. -/
theorem compute_centroids_csv_frame_witness :
    (compute_centroids_csv (fun _ => ()) (fun _ => ((0 : ℚ), 0)) ([] : List (LutEntry Unit))
        [⟨some "Leadville RD", some 5, some 6, ()⟩]).length = 1 ∧
    ((compute_centroids_csv (fun _ => ()) (fun _ => ((0 : ℚ), 0)) ([] : List (LutEntry Unit))
        [⟨some "Leadville RD", some 5, some 6, ()⟩]).get ⟨0, by decide⟩).longitude = some 5 ∧
    ((compute_centroids_csv (fun _ => ()) (fun _ => ((0 : ℚ), 0)) ([] : List (LutEntry Unit))
        [⟨some "Leadville RD", some 5, some 6, ()⟩]).get ⟨0, by decide⟩).latitude = some 6 := by
  have h := compute_centroids_csv_frame (fun _ => ()) (fun _ => ((0 : ℚ), 0))
    ([] : List (LutEntry Unit)) [⟨some "Leadville RD", some 5, some 6, ()⟩] 0 (by decide)
  have h2 := h.2 _ _ rfl rfl
  exact ⟨h.1, h2.1 rfl, h2.2.1 rfl⟩

/-- C7: a coordinate string pair is classified projected iff both values parse
as numbers, the pair is not within [-180,180] x [-90,90], and at least one
magnitude exceeds 1000; the pair (-104.9, 39.7) is classified geographic, the
pair (-11686000, 4808000) projected; and `merc3857_to_wgs84` always yields a
pair within [-180,180] x [-90,90], whatever the unclamped inverse-Mercator
value was. -/
theorem looks_like_3857_spec :
    (∀ fp lon_str lat_str, looks_like_3857 fp lon_str lat_str = true ↔
      ∃ x y, fp lon_str = some x ∧ fp lat_str = some y ∧
        ¬((-180 ≤ x ∧ x ≤ 180) ∧ (-90 ≤ y ∧ y ≤ 90)) ∧
        (1000 < |x| ∨ 1000 < |y|)) ∧
    (∀ fp : String → Option ℚ, fp "-104.9" = some (-1049/10) → fp "39.7" = some (397/10) →
      looks_like_3857 fp "-104.9" "39.7" = false) ∧
    (∀ fp : String → Option ℚ, fp "-11686000" = some (-11686000) → fp "4808000" = some 4808000 →
      looks_like_3857 fp "-11686000" "4808000" = true) ∧
    (∀ inv x y, -180 ≤ (merc3857_to_wgs84 inv x y).1 ∧ (merc3857_to_wgs84 inv x y).1 ≤ 180 ∧
      -90 ≤ (merc3857_to_wgs84 inv x y).2 ∧ (merc3857_to_wgs84 inv x y).2 ≤ 90) := by
  refine ⟨?_, ?_, ?_, ?_⟩
  · intro fp lon_str lat_str
    cases hx : fp lon_str with
    | none => simp [looks_like_3857, hx]
    | some x =>
        cases hy : fp lat_str with
        | none => simp [looks_like_3857, hx, hy]
        | some y =>
            simp only [looks_like_3857, hx, hy, Bool.and_eq_true, Bool.not_eq_eq_eq_not,
              Bool.or_eq_true, decide_eq_true_eq, Option.some.injEq]
            constructor
            · rintro ⟨hdeg, hmerc⟩
              refine ⟨x, y, rfl, rfl, ?_, ?_⟩
              · intro hcon
                simp only [Bool.not_true, Bool.and_eq_false_iff, decide_eq_false_iff_not] at hdeg
                rcases hdeg with ((h | h) | h) | h <;>
                  exact absurd (by tauto) h
              · simpa using hmerc
            · rintro ⟨x', y', hx', hy', hdeg, hmerc⟩
              cases hx'; cases hy'
              constructor
              · by_contra hne
                simp only [Bool.not_eq_not] at hne
                simp only [Bool.and_eq_true, decide_eq_true_eq] at hne
                exact hdeg ⟨⟨hne.1.1.1, hne.1.1.2⟩, hne.1.2, hne.2⟩
              · simpa using hmerc
  · intro fp h1 h2
    simp [looks_like_3857, h1, h2]
    norm_num
  · intro fp h1 h2
    simp [looks_like_3857, h1, h2]
    norm_num
  · intro inv x y
    refine ⟨le_max_right _ _, max_le (le_trans (min_le_right _ _) (by norm_num)) (by norm_num),
      le_max_right _ _, max_le (le_trans (min_le_right _ _) (by norm_num)) (by norm_num)⟩

/-- Witness for C7 with a concrete float-parsing collaborator. -/
theorem looks_like_3857_spec_witness :
    looks_like_3857
      (fun s => if s = "-104.9" then some (-1049/10) else if s = "39.7" then some (397/10)
        else if s = "-11686000" then some (-11686000)
        else if s = "4808000" then some 4808000 else none)
      "-104.9" "39.7" = false ∧
    looks_like_3857
      (fun s => if s = "-104.9" then some (-1049/10) else if s = "39.7" then some (397/10)
        else if s = "-11686000" then some (-11686000)
        else if s = "4808000" then some 4808000 else none)
      "-11686000" "4808000" = true := by
  constructor
  · exact looks_like_3857_spec.2.1 _ (by simp) (by simp)
  · exact looks_like_3857_spec.2.2.1 _ (by simp) (by simp)

/-- C2 (evaluated at the failing input): the schema-unifying merge of
`standardize.py` does not keep a row count equal to the sum of the input
tables' row counts — a row without resolvable coordinates is silently
dropped: one USFS input row, zero output rows, for every choice of the
float/date parsing collaborators. -/
theorem merge_all_rows_drops_geomless_row (fp : String → Option ℚ)
    (inv : ℚ → ℚ → ℚ × ℚ) (pdDate : String → Option Date) :
    usfsTableNoGeom.rows.length = 1 ∧
    merge_all_rows fp inv pdDate [usfsTableNoGeom] = [] :=
  ⟨rfl, rfl⟩

/-- C3 (evaluated at the failing input): exporting a unified record set that
contains a record without resolved geometry yields no feature at all for that
record — the record was dropped before export, so the feature collection is
empty rather than containing a placeholder [0,0] Point — and `to_geojson`
fails (raises) on a record lacking coordinate values instead of emitting a
[0,0] placeholder. -/
theorem to_geojson_no_placeholder (fp : String → Option ℚ)
    (inv : ℚ → ℚ → ℚ × ℚ) (pdDate : String → Option Date) :
    to_geojson (merge_all_rows fp inv pdDate [usfsTableNoGeom]) = some [] ∧
    to_geojson [⟨"Trail Project", "USFS", "", "", "", none, none⟩] = none :=
  ⟨rfl, rfl⟩

theorem mem_of_headEq {α : Type} {l : List α} {x : α} (h : l.head? = some x) : x ∈ l := by
  cases l with
  | nil => cases h
  | cons a t =>
      simp only [List.head?_cons, Option.some.injEq] at h
      exact h ▸ List.mem_cons_self a t

theorem mem_of_getLastEq {α : Type} {l : List α} {x : α} (h : l.getLast? = some x) :
    x ∈ l := by
  rcases List.mem_getLast?_eq_getLast (l := l) (x := x) h with ⟨hne, rfl⟩
  exact List.getLast_mem hne

theorem sorted_head_min {l : List Date} (hs : l.Sorted (· ≤ ·)) {x : Date}
    (hx : l.head? = some x) : ∀ y ∈ l, x ≤ y := by
  cases l with
  | nil => cases hx
  | cons a t =>
      simp only [List.head?_cons, Option.some.injEq] at hx
      subst hx
      intro y hy
      rcases List.mem_cons.mp hy with rfl | hy
      · exact le_refl y
      · exact List.rel_of_sorted_cons hs y hy

theorem sorted_getLast_max {l : List Date} (hs : l.Sorted (· ≤ ·)) {x : Date}
    (hx : l.getLast? = some x) : ∀ y ∈ l, y ≤ x := by
  induction l with
  | nil => cases hx
  | cons a t ih =>
      cases t with
      | nil =>
          simp only [List.getLast?_singleton, Option.some.injEq] at hx
          subst hx
          intro y hy
          rcases List.mem_cons.mp hy with rfl | hy
          · exact le_refl y
          · cases hy
      | cons b t2 =>
          rw [List.getLast?_cons_cons] at hx
          intro y hy
          rcases List.mem_cons.mp hy with rfl | hy
          · exact List.rel_of_sorted_cons hs x (mem_of_getLastEq hx)
          · exact ih hs.of_cons hx y hy

/-- C4 (amended): for every input text in which no clause contains a
participation-relevant keyword, `parse_dates_from_text` returns
`(None, None)` even if the text contains date tokens, for every dateutil
collaborator and reference year.  (The USFS `extract_date_range` performs no
keyword filtering; see its counterexample.) -/
theorem parse_dates_no_keyword (dparse : String → Option Date) (curYear : Nat)
    (text : String) (h : ∀ c ∈ blmClauses text, containsKW c = false) :
    parse_dates_from_text dparse curYear text = (none, none) := by
  have hrel : (blmClauses text).filter containsKW = [] := by
    rw [List.filter_eq_nil_iff]
    intro c hc
    simp [h c hc]
  by_cases ht : (text == "") = true
  · rw [parse_dates_from_text, if_pos ht]
  · rw [parse_dates_from_text, if_neg ht]
    simp [hrel]

/-- Witness for C4 on a keyword-free text that does contain a date token. -/
theorem parse_dates_no_keyword_witness :
    parse_dates_from_text (fun _ => none) 2025
      "Meeting scheduled for July 15, 2025. See calendar." = (none, none) ∧
    findDateTokens "Meeting scheduled for July 15, 2025. See calendar." ≠ [] :=
  ⟨parse_dates_no_keyword _ _ _ (by decide), by decide⟩

/-- C4 (counterexample): `extract_date_range` of `usfs_sopa_scrape.py` has no
keyword filter — on a text none of whose clauses contains a
participation-relevant keyword it still returns a full window from the date
tokens, contradicting the claim for the USFS variant. -/
theorem extract_date_range_ignores_keywords_cex :
    (∀ c ∈ blmClauses "July 15, 2025 to August 20, 2025", containsKW c = false) ∧
    containsKW "July 15, 2025 to August 20, 2025" = false ∧
    (extract_date_range "July 15, 2025 to August 20, 2025"
      ⟨2025, 1, 1⟩).comment_start = some ⟨2025, 7, 15⟩ ∧
    (extract_date_range "July 15, 2025 to August 20, 2025"
      ⟨2025, 1, 1⟩).comment_end = some ⟨2025, 8, 20⟩ := by
  exact ⟨by decide, by decide, by decide, by decide⟩

theorem extract_dates_year_ok {dparse : String → Option Date} {curYear : Nat}
    {s : String} {d : Date} (hd : d ∈ extract_dates dparse curYear s) :
    year_ok curYear d = true := by
  simp only [extract_dates, List.mem_filterMap] at hd
  obtain ⟨tok, htok, hf⟩ := hd
  split at hf
  · split at hf
    · rename_i hy
      injection hf with hf2
      subst hf2
      exact hy
    · cases hf
  · cases hf

theorem clauseCandidate_year {dparse : String → Option Date} {curYear : Nat}
    {c : String} {os oe : Option Date} {n : Nat}
    (h : clauseCandidate dparse curYear c = some (os, oe, n)) :
    (∀ d, os = some d → year_ok curYear d = true) ∧
    (∀ d, oe = some d → year_ok curYear d = true) := by
  simp only [clauseCandidate] at h
  split at h
  · injection h with h
    have h1 := congrArg Prod.fst h
    have h2 := congrArg (fun p => p.2.1) h
    simp only at h1 h2
    constructor
    · intro d hos
      rw [← h1] at hos
      have hmem := (List.perm_insertionSort (· ≤ ·) _).subset (mem_of_headEq hos)
      exact extract_dates_year_ok hmem
    · intro d hoe
      rw [← h2] at hoe
      have hmem := (List.perm_insertionSort (· ≤ ·) _).subset (mem_of_getLastEq hoe)
      exact extract_dates_year_ok hmem
  · split at h
    · injection h with h
      have h1 := congrArg Prod.fst h
      have h2 := congrArg (fun p => p.2.1) h
      simp only at h1 h2
      constructor
      · intro d hos
        rw [← h1] at hos
        cases hos
      · intro d hoe
        rw [← h2] at hoe
        exact extract_dates_year_ok (mem_of_headEq hoe)
    · cases h

theorem dueSearchF_year {dparse : String → Option Date} {curYear : Nat}
    {c : String} {d : Date} (h : dueSearchF dparse curYear c = some d) :
    year_ok curYear d = true := by
  unfold dueSearchF at h
  split at h
  · split at h
    · split at h
      · rename_i hy
        injection h with h2
        subst h2
        exact hy
      · cases h
    · cases h
  · cases h

/-- C5 (amended): every date returned by `parse_dates_from_text` — start or
end — has its year within [2000, current_year + 2], for every dateutil
collaborator.  (The USFS `extract_date_range` applies no year bound; see its
counterexample.) -/
theorem parse_dates_year_bound (dparse : String → Option Date) (curYear : Nat)
    (text : String) (d : Date)
    (h : (parse_dates_from_text dparse curYear text).1 = some d ∨
      (parse_dates_from_text dparse curYear text).2 = some d) :
    2000 ≤ d.year ∧ d.year ≤ curYear + 2 := by
  have hyear : year_ok curYear d = true → 2000 ≤ d.year ∧ d.year ≤ curYear + 2 := by
    intro hy
    simpa [year_ok, Bool.and_eq_true, decide_eq_true_eq] using hy
  apply hyear
  by_cases ht : (text == "") = true
  · rw [parse_dates_from_text, if_pos ht] at h
    rcases h with h | h <;> cases h
  · rw [parse_dates_from_text, if_neg ht] at h
    cases hdue : ((blmClauses text).filter containsKW).findSome?
        (dueSearchF dparse curYear) with
    | some d0 =>
        simp only [hdue] at h
        rcases h with h | h
        · cases h
        · cases h
          obtain ⟨c, _, hf⟩ := List.exists_of_findSome?_eq_some hdue
          exact dueSearchF_year hf
    | none =>
        simp only [hdue] at h
        cases hbest : (List.insertionSort
            (fun a b : Option Date × Option Date × Nat => a.2.2 ≤ b.2.2)
            (((blmClauses text).filter containsKW).filterMap
              (clauseCandidate dparse curYear))).head? with
        | none => simp only [hbest] at h; rcases h with h | h <;> cases h
        | some best =>
            obtain ⟨os, oe, n⟩ := best
            simp only [hbest] at h
            have hmem := (List.perm_insertionSort
              (fun a b : Option Date × Option Date × Nat => a.2.2 ≤ b.2.2) _).subset
              (mem_of_headEq hbest)
            rcases List.mem_filterMap.mp hmem with ⟨c, _, hcand⟩
            have hy := clauseCandidate_year hcand
            rcases h with h | h
            · exact hy.1 d h
            · exact hy.2 d h

/-- Witness for C5: the explicit "Comments are due" branch returns a date and
its year obeys the bound. -/
theorem parse_dates_year_bound_witness :
    (parse_dates_from_text
      (fun t => if t = "Sep 3, 2025" then some ⟨2025, 9, 3⟩ else none) 2025
      "Comments are due Sep 3, 2025").2 = some ⟨2025, 9, 3⟩ ∧
    2000 ≤ (⟨2025, 9, 3⟩ : Date).year ∧ (⟨2025, 9, 3⟩ : Date).year ≤ 2025 + 2 :=
  ⟨by decide,
    parse_dates_year_bound
      (fun t => if t = "Sep 3, 2025" then some ⟨2025, 9, 3⟩ else none) 2025
      "Comments are due Sep 3, 2025" ⟨2025, 9, 3⟩ (Or.inr (by decide))⟩

/-- C5 (counterexample): `extract_date_range` of `usfs_sopa_scrape.py`
applies no year bound — it returns dates from 1990, outside
[2000, current_year + 2] for every current year. -/
theorem extract_date_range_no_year_bound_cex :
    (extract_date_range "January 1, 1990 to March 2, 1990"
      ⟨2025, 1, 1⟩).comment_start = some ⟨1990, 1, 1⟩ ∧
    (extract_date_range "January 1, 1990 to March 2, 1990"
      ⟨2025, 1, 1⟩).comment_end = some ⟨1990, 3, 2⟩ ∧
    (1990 : Nat) < 2000 :=
  ⟨by decide, by decide, by decide⟩

/-- C6 (amended): for every relevant clause with two or more valid parsed
dates, the BLM `parse_dates_from_text` candidate is (earliest, latest) —
the minimum and maximum of the clause's dates, so independent of the order
in which the dates appear; the USFS `extract_date_range`, by contrast,
returns the earliest distinct date as start and the *second-earliest*
distinct date as end (equal to the latest only when there are exactly two
distinct dates). -/
theorem date_window_sorting :
    (∀ (dparse : String → Option Date) (curYear : Nat) (c : String),
      2 ≤ (extract_dates dparse curYear c).length →
      ∃ s e, clauseCandidate dparse curYear c = some (some s, some e, c.length) ∧
        s ∈ extract_dates dparse curYear c ∧ e ∈ extract_dates dparse curYear c ∧
        ∀ d ∈ extract_dates dparse curYear c, s ≤ d ∧ d ≤ e) ∧
    (∀ (text : String) (today : Date), 2 ≤ (usfsSortedDates text).length →
      ∃ s e, (extract_date_range text today).comment_start = some s ∧
        (extract_date_range text today).comment_end = some e ∧
        s ∈ usfsRawDates text ∧ e ∈ usfsRawDates text ∧ s < e ∧
        (∀ d ∈ usfsRawDates text, s ≤ d) ∧
        (∀ d ∈ usfsRawDates text, d ≠ s → e ≤ d)) := by
  constructor
  · intro dparse curYear c hlen
    have hperm := List.perm_insertionSort (· ≤ ·) (extract_dates dparse curYear c)
    have hsort : (List.insertionSort (· ≤ ·) (extract_dates dparse curYear c)).Sorted
        (· ≤ ·) := List.sorted_insertionSort (· ≤ ·) _
    have hlen2 : 2 ≤ (List.insertionSort (· ≤ ·)
        (extract_dates dparse curYear c)).length := by
      rw [List.length_insertionSort]
      exact hlen
    obtain ⟨s, hs⟩ : ∃ s, (List.insertionSort (· ≤ ·)
        (extract_dates dparse curYear c)).head? = some s := by
      cases hsc : List.insertionSort (· ≤ ·) (extract_dates dparse curYear c) with
      | nil => rw [hsc] at hlen2; simp at hlen2
      | cons a t => exact ⟨a, rfl⟩
    obtain ⟨e, he⟩ : ∃ e, (List.insertionSort (· ≤ ·)
        (extract_dates dparse curYear c)).getLast? = some e := by
      cases hsc : List.insertionSort (· ≤ ·) (extract_dates dparse curYear c) with
      | nil => rw [hsc] at hlen2; simp at hlen2
      | cons a t => exact ⟨(a :: t).getLast (by simp), List.getLast?_eq_getLast _ _⟩
    refine ⟨s, e, ?_, hperm.subset (mem_of_headEq hs),
      hperm.subset (mem_of_getLastEq he), ?_⟩
    · simp only [clauseCandidate]
      rw [if_pos hlen, hs, he]
    · intro d hd
      have hd2 : d ∈ List.insertionSort (· ≤ ·) (extract_dates dparse curYear c) :=
        hperm.mem_iff.mpr hd
      exact ⟨sorted_head_min hsort hs d hd2, sorted_getLast_max hsort he d hd2⟩
  · intro text today hlen
    have hsd_le : (usfsSortedDates text).Sorted (· ≤ ·) :=
      List.Pairwise.sublist (List.dedup_sublist _)
        (List.sorted_insertionSort (· ≤ ·) (usfsRawDates text))
    have hmem_iff : ∀ x, x ∈ usfsSortedDates text ↔ x ∈ usfsRawDates text := by
      intro x
      unfold usfsSortedDates
      rw [List.mem_dedup]
      exact (List.perm_insertionSort (· ≤ ·) _).mem_iff
    cases hsd : usfsSortedDates text with
    | nil => rw [hsd] at hlen; simp at hlen
    | cons d1 t1 =>
        cases t1 with
        | nil => rw [hsd] at hlen; simp at hlen
        | cons d2 rest =>
            have hcs : (extract_date_range text today).comment_start = some d1 ∧
                (extract_date_range text today).comment_end = some d2 := by
              constructor <;> simp [extract_date_range, hsd]
            rw [hsd] at hsd_le
            refine ⟨d1, d2, hcs.1, hcs.2, ?_, ?_, ?_, ?_, ?_⟩
            · exact (hmem_iff d1).mp (by rw [hsd]; exact List.mem_cons_self _ _)
            · exact (hmem_iff d2).mp
                (by rw [hsd]; exact List.mem_cons_of_mem _ (List.mem_cons_self _ _))
            · have hnodup : (d1 :: d2 :: rest).Nodup := by
                rw [← hsd]
                unfold usfsSortedDates
                exact List.nodup_dedup _
              exact List.rel_of_sorted_cons (hsd_le.lt_of_le hnodup) d2
                (List.mem_cons_self _ _)
            · intro d hd
              have hd2 : d ∈ d1 :: d2 :: rest := by
                rw [← hsd]
                exact (hmem_iff d).mpr hd
              exact sorted_head_min hsd_le rfl d hd2
            · intro d hd hne
              have hd2 : d ∈ d1 :: d2 :: rest := by
                rw [← hsd]
                exact (hmem_iff d).mpr hd
              rcases List.mem_cons.mp hd2 with rfl | hd3
              · exact absurd rfl hne
              · rcases List.mem_cons.mp hd3 with rfl | hd4
                · exact le_refl d
                · exact List.rel_of_sorted_cons hsd_le.of_cons d hd4

/-- Witness for C6 at concrete inputs: a BLM clause with two dates in
reversed textual order, and a USFS text with two dates. -/
theorem date_window_sorting_witness :
    (∃ s e, clauseCandidate
        (fun t => if t = "Jan 2, 2025" then some ⟨2025, 1, 2⟩
          else if t = "Feb 3, 2025" then some ⟨2025, 2, 3⟩ else none) 2025
        "Public comment period from Feb 3, 2025 to Jan 2, 2025." =
        some (some s, some e,
          ("Public comment period from Feb 3, 2025 to Jan 2, 2025." : String).length) ∧
      s ∈ extract_dates
        (fun t => if t = "Jan 2, 2025" then some ⟨2025, 1, 2⟩
          else if t = "Feb 3, 2025" then some ⟨2025, 2, 3⟩ else none) 2025
        "Public comment period from Feb 3, 2025 to Jan 2, 2025." ∧
      e ∈ extract_dates
        (fun t => if t = "Jan 2, 2025" then some ⟨2025, 1, 2⟩
          else if t = "Feb 3, 2025" then some ⟨2025, 2, 3⟩ else none) 2025
        "Public comment period from Feb 3, 2025 to Jan 2, 2025." ∧
      ∀ d ∈ extract_dates
        (fun t => if t = "Jan 2, 2025" then some ⟨2025, 1, 2⟩
          else if t = "Feb 3, 2025" then some ⟨2025, 2, 3⟩ else none) 2025
        "Public comment period from Feb 3, 2025 to Jan 2, 2025.", s ≤ d ∧ d ≤ e) ∧
    (∃ s e,
      (extract_date_range "April 5, 2025 to May 6, 2025" ⟨2025, 1, 1⟩).comment_start =
        some s ∧
      (extract_date_range "April 5, 2025 to May 6, 2025" ⟨2025, 1, 1⟩).comment_end =
        some e ∧
      s ∈ usfsRawDates "April 5, 2025 to May 6, 2025" ∧
      e ∈ usfsRawDates "April 5, 2025 to May 6, 2025" ∧ s < e ∧
      (∀ d ∈ usfsRawDates "April 5, 2025 to May 6, 2025", s ≤ d) ∧
      (∀ d ∈ usfsRawDates "April 5, 2025 to May 6, 2025", d ≠ s → e ≤ d)) :=
  ⟨date_window_sorting.1 _ 2025 _ (by decide),
   date_window_sorting.2 _ ⟨2025, 1, 1⟩ (by decide)⟩

/-- C6 (counterexample): on a text with three distinct dates the USFS
`extract_date_range` returns the second-earliest date as the window end, not
the latest — July 1, 2024 is among the parsed dates, yet the end is
March 1, 2024. -/
theorem usfs_end_not_latest_cex :
    (extract_date_range "March 1, 2024 then January 1, 2024 then July 1, 2024"
      ⟨2025, 1, 1⟩).comment_start = some ⟨2024, 1, 1⟩ ∧
    (extract_date_range "March 1, 2024 then January 1, 2024 then July 1, 2024"
      ⟨2025, 1, 1⟩).comment_end = some ⟨2024, 3, 1⟩ ∧
    (⟨2024, 7, 1⟩ : Date) ∈
      usfsRawDates "March 1, 2024 then January 1, 2024 then July 1, 2024" ∧
    (⟨2024, 3, 1⟩ : Date) < ⟨2024, 7, 1⟩ := by
  exact ⟨by decide, by decide, by decide, by decide⟩

/-- C10 (amended): when the text contains "Comment Period Public Notice" and
its first long-form date token parses, `extract_date_range` returns that date
as `expected_comment_start` and `pyAddDays d 30` as `expected_comment_end` —
exactly 30 days later, or `None` when adding 30 days passes the Python
calendar maximum 9999-12-31 (the `OverflowError` is swallowed); when the
phrase is absent both expected fields are `None`; and `start_date` is always
the first non-None of comment_start, expected_comment_start, comment_end,
expected_comment_end. -/
theorem extract_date_range_expected_window (text : String) (today : Date) :
    (hasNoticePhrase text = true →
      ∀ tok d, (findLongTokens text).head? = some tok →
        parseLongToken tok = some d →
        (extract_date_range text today).expected_start = some d ∧
        (extract_date_range text today).expected_end = pyAddDays d 30) ∧
    (hasNoticePhrase text = false →
      (extract_date_range text today).expected_start = none ∧
      (extract_date_range text today).expected_end = none) ∧
    (extract_date_range text today).start_date =
      ((((extract_date_range text today).comment_start).orElse
        (fun _ => (extract_date_range text today).expected_start)).orElse
        (fun _ => (extract_date_range text today).comment_end)).orElse
        (fun _ => (extract_date_range text today).expected_end) := by
  refine ⟨?_, ?_, ?_⟩
  · intro hn tok d htok hd
    constructor <;> simp [extract_date_range, hn, htok, hd]
  · intro hn
    constructor <;> simp [extract_date_range, hn]
  · rfl

set_option maxRecDepth 8000 in
/-- Witness for C10: a notice text whose first long-form date is
July 1, 2025; the expected window is (July 1, 2025, July 31, 2025). -/
theorem extract_date_range_expected_window_witness :
    (extract_date_range "Comment Period Public Notice July 1, 2025"
      ⟨2026, 1, 1⟩).expected_start = some ⟨2025, 7, 1⟩ ∧
    (extract_date_range "Comment Period Public Notice July 1, 2025"
      ⟨2026, 1, 1⟩).expected_end = pyAddDays ⟨2025, 7, 1⟩ 30 ∧
    pyAddDays (⟨2025, 7, 1⟩ : Date) 30 = some ⟨2025, 7, 31⟩ := by
  have h := (extract_date_range_expected_window
    "Comment Period Public Notice July 1, 2025" ⟨2026, 1, 1⟩).1 (by decide)
    "July 1, 2025" ⟨2025, 7, 1⟩ (by decide) (by decide)
  exact ⟨h.1, h.2, by decide⟩

set_option maxRecDepth 8000 in
/-- C10 (counterexample): for the notice text "Comment Period Public Notice
December 31, 9999" the first long-form date parses, yet
`expected_comment_end` is `None` rather than 30 days later — Python's
`date + timedelta(30)` overflows past year 9999 and the `OverflowError` is
swallowed. -/
theorem extract_date_range_overflow_cex :
    hasNoticePhrase "Comment Period Public Notice December 31, 9999" = true ∧
    (findLongTokens "Comment Period Public Notice December 31, 9999").head? =
      some "December 31, 9999" ∧
    parseLongToken "December 31, 9999" = some ⟨9999, 12, 31⟩ ∧
    (extract_date_range "Comment Period Public Notice December 31, 9999"
      ⟨2025, 1, 1⟩).expected_start = some ⟨9999, 12, 31⟩ ∧
    (extract_date_range "Comment Period Public Notice December 31, 9999"
      ⟨2025, 1, 1⟩).expected_end = none := by
  exact ⟨by decide, by decide, by decide, by decide, by decide⟩
